import Mathlib

/-!
Shallow embedding of the `dinero` monetary-value library
(`src/dinero/_dinero.py`), for checking the natural-language
specification against the code.

Modelling decisions:

* Python `Decimal` values are embedded by their exact numeric value as a
  rational number `ℚ`.  The source raises the ambient decimal context
  precision in `_normalize` (`getcontext().prec = max(precision,
  len(str(amount)) + exponent)`) precisely so that additions,
  subtractions, multiplications and power-of-ten divisions never lose
  significant digits; under that sufficient-precision reading these
  operations are exact, which is what the rational embedding computes.
  `Decimal.normalize()` (stripping trailing zeros) is value-preserving
  and therefore the identity in this embedding.
* `Decimal.quantize(1e-exponent, ROUND_HALF_EVEN)` is embedded by
  `quantize_half_even`, rounding to `exponent` fractional digits with
  ties to the even neighbour.
* Python exceptions are embedded by `Except Err`; each constructor of
  `Err` names the exception class the source raises.
* The dynamic operand typing (`int | float | str | Decimal | Dinero`) is
  embedded by the closed sum `Operand`: every non-`Dinero` numeric
  operand enters as its exact decimal value (Python converts through
  `Decimal(str(x))`, which for floats is the shortest decimal
  representation, always a finite decimal and hence a rational).
  The validators of the missing `_validators.py` accept exactly these
  numeric shapes, so on `Operand` they always pass.
-/

/-- Currency descriptor: the fields of the `Currency` typed dictionary
(`code`, `base`, `exponent`, `symbol`) used by `_dinero.py`.  Supplied by
the caller; the library only reads it. -/
structure Currency where
  code : String
  base : ℕ
  exponent : ℕ
  symbol : String
deriving DecidableEq, Repr

/-- Error kinds: one constructor per exception class the source raises.
`valueError` is the `ValueError` of `from_minor` (the spec's
ArgumentFormat / InvalidArgument condition), `divisionByZero` is
`decimal.DivisionByZero` raised by dividing by a zero `Decimal`,
`domainError` is the `ValueError` the toolkit raises on a negative rate. -/
inductive Err where
  | invalidOperation
  | differentCurrency
  | valueError
  | divisionByZero
  | typeError
  | domainError
deriving DecidableEq, Repr

/-- A Dinero object: an unrounded decimal amount in major units plus its
currency descriptor (`Dinero.__init__`). -/
structure Dinero where
  amount : ℚ
  currency : Currency
deriving DecidableEq, Repr

/-- Right-hand operand of an arithmetic or comparison method: either a
plain numeric scalar (int / float / decimal string / Decimal, entering by
its exact decimal value) or another Dinero object. -/
inductive Operand where
  | scalar (q : ℚ)
  | money (d : Dinero)
deriving DecidableEq, Repr

/-- Round a rational to the nearest integer, ties to the even neighbour:
the value semantics of `Decimal` rounding with `ROUND_HALF_EVEN`.
`q.num.fdiv q.den` is the floor of `q` (the denominator is positive). -/
def roundHalfEven (q : ℚ) : ℤ :=
  let f : ℤ := q.num.fdiv (q.den : ℤ)
  let r : ℚ := q - (f : ℚ)
  if r < 1/2 then f
  else if 1/2 < r then f + 1
  else if f % 2 = 0 then f else f + 1

/-- Round `q` to exactly `e` fractional digits, half to even: the value of
`Decimal.quantize(Decimal(f"1e-{e}"))` under the default
`ROUND_HALF_EVEN` rounding of the decimal context. -/
def quantize_half_even (q : ℚ) (e : ℕ) : ℚ :=
  ((roundHalfEven (q * 10 ^ e) : ℚ)) / 10 ^ e

/-- Truncation toward zero: the value of Python `int()` applied to a
`Decimal`. -/
def intTrunc (q : ℚ) : ℤ :=
  q.num.tdiv (q.den : ℤ)

namespace Dinero

/-- `Dinero.code` property: `self.currency.get("code")`. -/
def code (d : Dinero) : String := d.currency.code

/-- `Dinero.symbol` property: `self.currency.get("symbol", "$")`. -/
def symbol (d : Dinero) : String := d.currency.symbol

/-- `Dinero.exponent` property: `self.currency.get("exponent")`. -/
def exponent (d : Dinero) : ℕ := d.currency.exponent

/-- `Dinero.precision` property: `self.currency.get("base")` — the
currency's radix field, not a digit count. -/
def precision (d : Dinero) : ℕ := d.currency.base

/-- Working precision installed by `Dinero._normalize` before computing:
`getcontext().prec = max(self.precision, len(str(self.amount)) +
self.exponent)`.  The length of the decimal string representation of the
stored amount depends on the `Decimal` representation, which the value
embedding abstracts, so it enters as the parameter `amount_str_len`. -/
def working_prec (d : Dinero) (amount_str_len : ℕ) : ℕ :=
  max d.precision (amount_str_len + d.exponent)

/-- `Dinero._normalize(quantize)`: strip trailing zeros
(value-preserving), and if `quantize` is set, round to exactly
`currency.exponent` fractional digits, half to even. -/
def normalize (d : Dinero) (quantize : Bool) : ℚ :=
  if quantize then quantize_half_even d.amount d.currency.exponent
  else d.amount

/-- `Dinero.from_major(amount, currency)`: validate, parse to decimal,
store as-is in major units.  No unit conversion. -/
def from_major (amount : ℚ) (currency : Currency) : Dinero :=
  ⟨amount, currency⟩

/-- `Dinero.from_minor(amount, currency)`: validate, reject a non-whole
amount with `ValueError` (`amount % 1 != 0`, i.e. the value is not an
integer, i.e. the reduced denominator is not 1), otherwise divide by
`Decimal(10**exponent)` — the literal radix 10, not `currency["base"]`. -/
def from_minor (amount : ℚ) (currency : Currency) : Except Err Dinero :=
  if amount.den = 1 then
    .ok ⟨amount / 10 ^ currency.exponent, currency⟩
  else
    .error .valueError

/-- Modelled from the spec (§4.3): the claim's reading of
`fromMinorUnits`, converting via `amount / radix^exponent` with the
radix taken from the currency descriptor's `base` field.  Kept separate
from `from_minor`, which embeds the source's `amount /
Decimal(10**exponent)`. -/
def from_minor_by_spec (amount : ℚ) (currency : Currency) : Except Err Dinero :=
  if amount.den = 1 then
    .ok ⟨amount / (currency.base : ℚ) ^ currency.exponent, currency⟩
  else
    .error .valueError

/-- `Dinero.from_fractional_minor(amount, currency)`: validate, divide by
`Decimal(10**exponent)`, store unrounded. -/
def from_fractional_minor (amount : ℚ) (currency : Currency) : Dinero :=
  ⟨amount / 10 ^ currency.exponent, currency⟩

/-- `Dinero.to_minor_units()`:
`int(self._normalize(quantize=True) * (10**exponent))`. -/
def to_minor_units (d : Dinero) : ℤ :=
  intTrunc (d.normalize true * 10 ^ d.currency.exponent)

/-- `Dinero._get_instance(amount)`: promote a non-Dinero operand via
`from_major` in the receiver's currency, then fail with
`DifferentCurrencyError` unless the currency codes agree. -/
def get_instance (d : Dinero) (o : Operand) : Except Err Dinero :=
  let obj : Dinero :=
    match o with
    | .scalar q => from_major q d.currency
    | .money m => m
  if obj.code = d.code then .ok obj else .error .differentCurrency

/-- `Dinero.__add__` / `Dinero.add`: validate, resolve the operand, sum
the unquantized normalized amounts, rebuild via `from_major` in the
receiver's currency. -/
def add (d : Dinero) (o : Operand) : Except Err Dinero :=
  match d.get_instance o with
  | .error e => .error e
  | .ok obj => .ok (from_major (d.normalize false + obj.normalize false) d.currency)

/-- `Dinero.__radd__`: returns `self` unconditionally, ignoring the
non-Dinero left operand entirely. -/
def radd (d : Dinero) {α : Type} (_ : α) : Dinero := d

/-- `Dinero.__sub__` / `Dinero.subtract`. -/
def subtract (d : Dinero) (o : Operand) : Except Err Dinero :=
  match d.get_instance o with
  | .error e => .error e
  | .ok obj => .ok (from_major (d.normalize false - obj.normalize false) d.currency)

/-- `Dinero.__mul__` / `Dinero.multiply`. -/
def multiply (d : Dinero) (o : Operand) : Except Err Dinero :=
  match d.get_instance o with
  | .error e => .error e
  | .ok obj => .ok (from_major (d.normalize false * obj.normalize false) d.currency)

/-- `Dinero.__truediv__` / `Dinero.divide`: as `multiply`, except that
dividing by a zero `Decimal` raises `decimal.DivisionByZero`.  (Where the
decimal quotient is inexact the context rounds it to the working
precision; no claim reads such a quotient, so the embedding keeps the
exact value.) -/
def divide (d : Dinero) (o : Operand) : Except Err Dinero :=
  match d.get_instance o with
  | .error e => .error e
  | .ok obj =>
    if obj.normalize false = 0 then .error .divisionByZero
    else .ok (from_major (d.normalize false / obj.normalize false) d.currency)

/-- `Dinero.__eq__` / `Dinero.equals_to`: reject a non-Dinero operand
with `InvalidOperationError`, resolve through `_get_instance` (currency
code check), then compare the two sides each quantized by its own
`_normalize(quantize=True)`. -/
def equals_to (d : Dinero) (o : Operand) : Except Err Bool :=
  match o with
  | .scalar _ => .error .invalidOperation
  | .money m =>
    match d.get_instance (.money m) with
    | .error e => .error e
    | .ok m2 => .ok (decide (d.normalize true = m2.normalize true))

/-- `Dinero.__lt__` / `Dinero.less_than`. -/
def less_than (d : Dinero) (o : Operand) : Except Err Bool :=
  match o with
  | .scalar _ => .error .invalidOperation
  | .money m =>
    match d.get_instance (.money m) with
    | .error e => .error e
    | .ok m2 => .ok (decide (d.normalize true < m2.normalize true))

/-- `Dinero.__le__` / `Dinero.less_than_or_equal`. -/
def less_than_or_equal (d : Dinero) (o : Operand) : Except Err Bool :=
  match o with
  | .scalar _ => .error .invalidOperation
  | .money m =>
    match d.get_instance (.money m) with
    | .error e => .error e
    | .ok m2 => .ok (decide (d.normalize true ≤ m2.normalize true))

/-- `Dinero.__gt__` / `Dinero.greater_than`. -/
def greater_than (d : Dinero) (o : Operand) : Except Err Bool :=
  match o with
  | .scalar _ => .error .invalidOperation
  | .money m =>
    match d.get_instance (.money m) with
    | .error e => .error e
    | .ok m2 => .ok (decide (m2.normalize true < d.normalize true))

/-- `Dinero.__ge__` / `Dinero.greater_than_or_equal`. -/
def greater_than_or_equal (d : Dinero) (o : Operand) : Except Err Bool :=
  match o with
  | .scalar _ => .error .invalidOperation
  | .money m =>
    match d.get_instance (.money m) with
    | .error e => .error e
    | .ok m2 => .ok (decide (m2.normalize true ≤ d.normalize true))

end Dinero

/-- Decimal digit character for a digit value below ten. -/
def digitChar : ℕ → Char
  | 0 => '0'
  | 1 => '1'
  | 2 => '2'
  | 3 => '3'
  | 4 => '4'
  | 5 => '5'
  | 6 => '6'
  | 7 => '7'
  | 8 => '8'
  | _ => '9'

/-- Decimal digits of a natural number, most significant first, with
explicit fuel so the recursion is structural. -/
def natDigitsAux : ℕ → ℕ → List Char
  | 0, _ => []
  | fuel + 1, n =>
    if n = 0 then [] else natDigitsAux fuel (n / 10) ++ [digitChar (n % 10)]

/-- Decimal digit string of a natural number. -/
def natDigits (n : ℕ) : List Char :=
  if n = 0 then ['0'] else natDigitsAux (n + 1) n

/-- Insert a comma after every third character of a reversed digit list:
the thousands grouping of Python's `,` format specifier. -/
def groupRev : List Char → ℕ → List Char
  | [], _ => []
  | c :: rest, k =>
    if rest.isEmpty then [c]
    else if k = 2 then c :: ',' :: groupRev rest 0
    else c :: groupRev rest (k + 1)

/-- Decimal digits of a natural number with thousands separators. -/
def group_digits (n : ℕ) : List Char :=
  (groupRev (natDigits n).reverse 0).reverse

/-- Pad a digit list on the left with zeros up to length `e`. -/
def pad_left (ds : List Char) (e : ℕ) : List Char :=
  List.replicate (e - ds.length) '0' ++ ds

namespace Dinero

/-- `Dinero._formatted_amount`: render
`self._normalize(quantize=True)` with the format specifier
`f",.{exponent}f"` — thousands grouping and exactly `exponent`
fractional digits.  The quantized value is `n / 10^exponent` for the
integer `n = roundHalfEven (amount * 10^exponent)`, so the rendering is
determined by `n`: sign, grouped integer part, and, when the exponent is
positive, a point followed by the zero-padded fractional digits. -/
def formatted_amount (d : Dinero) : String :=
  let e := d.currency.exponent
  let n := roundHalfEven (d.amount * 10 ^ e)
  let sign := if n < 0 then "-" else ""
  let m := n.natAbs
  let ip := group_digits (m / 10 ^ e)
  let fp := if e = 0 then [] else '.' :: pad_left (natDigits (m % 10 ^ e)) e
  sign ++ String.mk (ip ++ fp)

/-- `Dinero.format(symbol, currency)`: optional currency symbol, the
formatted amount, optional trailing currency code. -/
def format (d : Dinero) (symbol : Bool) (currency : Bool) : String :=
  (if symbol then d.currency.symbol else "") ++ d.formatted_amount ++
    (if currency then " " ++ d.currency.code else "")

end Dinero

/-- Modelled from the spec: `dinero/currencies.py` is not under `src/`;
`src/tests/test_dinero.py` (`test_obj_properties`) pins USD as code
"USD", base 10, exponent 2, symbol "$". -/
def usd : Currency := ⟨"USD", 10, 2, "$"⟩

/-- Modelled from the spec: EUR as pinned by `test_obj_properties` —
code "EUR", base 10, exponent 2, symbol "€". -/
def eur : Currency := ⟨"EUR", 10, 2, "€"⟩

/-- A caller-supplied currency descriptor whose `base` field is not 10
(the spec's CurrencyDescriptor allows any radix: "radix (base), integer
(normally 10)"; the descriptor is supplied by the caller, not computed). -/
def xts : Currency := ⟨"XTS", 2, 2, "X"⟩

/-- Modelled from the spec: `dinero/tools.py` is not under `src/`.  The
spec's §4.8 formula for `vat` (`amount.multiply(ratePercent/100)`)
contradicts the spec's own literal scenario 4 and the in-repo test
corpus `src/tests/test_tools.py`, which pin `vat(100 USD, 7.25) = 6.76
USD`, `vat(50 EUR, 21) = 8.68 EUR`, `vat(500 CLP, 19) = 80 CLP`: those
are the VAT portion contained in the gross amount,
`amount.multiply(rate/(100+rate))`.  The test corpus is the authority,
so the model validates the scalar rate (negative rates fail with the
domain condition, as the test expects `ValueError`) and multiplies by
`rate/(100+rate)`. -/
def calculate_vat (amount : Dinero) (vat_rate : ℚ) : Except Err Dinero :=
  if vat_rate < 0 then .error .domainError
  else amount.multiply (.scalar (vat_rate / (100 + vat_rate)))

/-- Modelled from the spec: the claim's reading of `vat` (§4.8),
`amount.multiply(ratePercent/100)`.  Kept separate from
`calculate_vat`, which follows the behaviour the in-repo tests pin. -/
def vat_by_spec_formula (amount : Dinero) (vat_rate : ℚ) : Except Err Dinero :=
  amount.multiply (.scalar (vat_rate / 100))

/-! ## Helper lemmas -/

theorem roundHalfEven_intCast (m : ℤ) : roundHalfEven (m : ℚ) = m := by
  unfold roundHalfEven
  simp only [Rat.num_intCast, Rat.den_intCast, Nat.cast_one, Int.fdiv_one]
  norm_num

theorem intTrunc_intCast (m : ℤ) : intTrunc (m : ℚ) = m := by
  unfold intTrunc
  simp only [Rat.num_intCast, Rat.den_intCast, Nat.cast_one, Int.tdiv_one]

/-! ## Claim theorems -/

/-- Claim C1: for every currency with exponent `e` and every whole
integer `m`, constructing via `from_minor(m, c)` and then calling
`to_minor_units()` returns exactly `m`. -/
theorem claim_C1_minor_round_trip (m : ℤ) (c : Currency) :
    (Dinero.from_minor (m : ℚ) c).map Dinero.to_minor_units = .ok m := by
  have h10 : (10 : ℚ) ^ c.exponent ≠ 0 := pow_ne_zero _ (by norm_num)
  unfold Dinero.from_minor
  rw [if_pos (Rat.den_intCast m)]
  show Except.ok (intTrunc
      ((roundHalfEven ((m : ℚ) / 10 ^ c.exponent * 10 ^ c.exponent) : ℚ)
        / 10 ^ c.exponent * 10 ^ c.exponent)) = Except.ok (m : ℤ)
  rw [div_mul_cancel₀ ((m : ℚ)) h10, roundHalfEven_intCast,
    div_mul_cancel₀ _ h10, intTrunc_intCast]

/-- Claim C2: for every two Dinero objects whose currency codes differ,
each of add, subtract, equals_to, less_than, less_than_or_equal,
greater_than and greater_than_or_equal fails with
`DifferentCurrencyError` and produces no result value. -/
theorem claim_C2_currency_guard (a b : Dinero) (h : a.code ≠ b.code) :
    a.add (.money b) = .error .differentCurrency ∧
    a.subtract (.money b) = .error .differentCurrency ∧
    a.equals_to (.money b) = .error .differentCurrency ∧
    a.less_than (.money b) = .error .differentCurrency ∧
    a.less_than_or_equal (.money b) = .error .differentCurrency ∧
    a.greater_than (.money b) = .error .differentCurrency ∧
    a.greater_than_or_equal (.money b) = .error .differentCurrency := by
  have hg : a.get_instance (.money b) = .error .differentCurrency := by
    unfold Dinero.get_instance
    exact if_neg fun hc => h hc.symm
  refine ⟨?_, ?_, ?_, ?_, ?_, ?_, ?_⟩ <;>
    simp only [Dinero.add, Dinero.subtract, Dinero.equals_to, Dinero.less_than,
      Dinero.less_than_or_equal, Dinero.greater_than, Dinero.greater_than_or_equal, hg]

/-- Witness for C2 at 1 USD against 1 EUR. -/
theorem claim_C2_witness :
    (Dinero.from_major 1 usd).code ≠ (Dinero.from_major 1 eur).code ∧
    (Dinero.from_major 1 usd).add (.money (Dinero.from_major 1 eur)) =
      .error .differentCurrency :=
  have h : (Dinero.from_major 1 usd).code ≠ (Dinero.from_major 1 eur).code := by
    simp [Dinero.code, Dinero.from_major, usd, eur]
  ⟨h, (claim_C2_currency_guard _ _ h).1⟩

/-- Claim C3: for two Dinero objects with the same currency code,
`equals_to` returns true exactly when the two amounts, each quantized to
its currency's exponent fractional digits, are equal; values differing
only below the currency precision therefore compare equal. -/
theorem claim_C3_equals_iff_quantized_equal (a b : Dinero) (h : a.code = b.code) :
    a.equals_to (.money b) = .ok true ↔ a.normalize true = b.normalize true := by
  have hg : a.get_instance (.money b) = .ok b := by
    unfold Dinero.get_instance
    exact if_pos h.symm
  simp only [Dinero.equals_to, hg, Except.ok.injEq, decide_eq_true_eq]

/-- Witness for C3: 2.321 USD and 2.3209 USD differ only below the
two-digit precision and compare equal. -/
theorem claim_C3_witness :
    (Dinero.from_major (2321/1000) usd).equals_to
      (.money (Dinero.from_major (23209/10000) usd)) = .ok true :=
  (claim_C3_equals_iff_quantized_equal (Dinero.from_major (2321/1000) usd)
      (Dinero.from_major (23209/10000) usd) rfl).mpr (by with_unfolding_all rfl)

/-- Claim C4: quantization is round-half-to-even:
`from_fractional_minor(10.505, USD).format()` is `"0.11"` (10.505 cents
is 0.10505 dollars, above the halfway point at two places) and
`from_fractional_minor(1050.5, USD).format()` is `"10.50"` (the exact
halfway case 10.505 dollars rounds to the even last digit). -/
theorem claim_C4_round_half_even_format :
    (Dinero.from_fractional_minor (2101/200) usd).format false false = "0.11" ∧
    (Dinero.from_fractional_minor (2101/2) usd).format false false = "10.50" :=
  ⟨by with_unfolding_all rfl, by with_unfolding_all rfl⟩

/-- Claim C5, counterexample: the claim asserts both that
`vat(amount, rate)` is `amount.multiply(rate/100)` and that
`vat(100 USD, 7.25)` equals `6.76 USD`; but `multiply(7.25/100)` applied
to 100 USD compares unequal to 6.76 USD (it is 7.25 USD), while the
behaviour pinned by `src/tests/test_tools.py` (embedded as
`calculate_vat`) does give 6.76 USD, so the two halves of the claim
contradict each other on the code. -/
theorem claim_C5_counterexample :
    Except.bind (vat_by_spec_formula (Dinero.from_major 100 usd) (29/4))
      (fun v => v.equals_to (.money (Dinero.from_major (169/25) usd))) = .ok false ∧
    Except.bind (calculate_vat (Dinero.from_major 100 usd) (29/4))
      (fun v => v.equals_to (.money (Dinero.from_major (169/25) usd))) = .ok true :=
  ⟨by with_unfolding_all rfl, by with_unfolding_all rfl⟩

/-- Claim C5, amended: for a non-negative rate, `vat(amount,
ratePercent)` returns `amount.multiply(ratePercent/(100+ratePercent))` —
the VAT portion contained in the gross amount — and in particular
`vat(100 USD, 7.25)` equals `6.76 USD`. -/
theorem claim_C5_amended_vat_portion :
    (∀ (a : Dinero) (r : ℚ), 0 ≤ r →
        calculate_vat a r = a.multiply (.scalar (r / (100 + r)))) ∧
    Except.bind (calculate_vat (Dinero.from_major 100 usd) (29/4))
      (fun v => v.equals_to (.money (Dinero.from_major (169/25) usd))) = .ok true := by
  refine ⟨fun a r hr => ?_, by with_unfolding_all rfl⟩
  unfold calculate_vat
  rw [if_neg (not_lt.mpr hr)]

/-- Witness for the amended C5 at amount 100 USD and rate 7.25. -/
theorem claim_C5_amended_witness :
    calculate_vat (Dinero.from_major 100 usd) (29/4) =
      (Dinero.from_major 100 usd).multiply (.scalar ((29/4) / (100 + 29/4))) :=
  claim_C5_amended_vat_portion.1 (Dinero.from_major 100 usd) (29/4) (by norm_num)

/-- Claim C6: `add` promotes a non-Dinero right operand to a Dinero in
the receiver's currency via `from_major`, sums the unquantized
normalized amounts, and returns a new Dinero in the receiver's currency;
concretely, `from_major("24.5", USD).add("1")` equals
`from_major("25.50", USD)`. -/
theorem claim_C6_add_scalar_promotion :
    (∀ (d : Dinero) (q : ℚ),
        d.add (.scalar q) = .ok (Dinero.from_major (d.amount + q) d.currency)) ∧
    Except.bind ((Dinero.from_major (49/2) usd).add (.scalar 1))
      (fun r => r.equals_to (.money (Dinero.from_major (51/2) usd))) = .ok true := by
  refine ⟨fun d q => ?_, by with_unfolding_all rfl⟩
  simp [Dinero.add, Dinero.get_instance, Dinero.code, Dinero.normalize,
    Dinero.from_major]

/-- Claim C7: dividing by an operand of numeric value zero fails with
the `decimal.DivisionByZero` domain error and produces no result: for
scalar operands of value zero, and for Dinero operands of the same
currency whose amount is zero. -/
theorem claim_C7_divide_by_zero (d : Dinero) :
    (∀ q : ℚ, q = 0 → d.divide (.scalar q) = .error .divisionByZero) ∧
    (∀ m : Dinero, m.code = d.code → m.amount = 0 →
        d.divide (.money m) = .error .divisionByZero) := by
  constructor
  · rintro q rfl
    simp [Dinero.divide, Dinero.get_instance, Dinero.code, Dinero.normalize,
      Dinero.from_major]
  · intro m hc ha
    simp [Dinero.divide, Dinero.get_instance, hc, Dinero.normalize, ha]

/-- Witness for C7 at 1 USD divided by the scalar 0 and by a
zero-amount USD Dinero. -/
theorem claim_C7_witness :
    (Dinero.from_major 1 usd).divide (.scalar 0) = .error .divisionByZero ∧
    (Dinero.from_major 1 usd).divide (.money (Dinero.from_major 0 usd)) =
      .error .divisionByZero :=
  ⟨(claim_C7_divide_by_zero _).1 0 rfl,
   (claim_C7_divide_by_zero _).2 (Dinero.from_major 0 usd) rfl rfl⟩

/-- Claim C8, counterexample: for the caller-supplied currency `xts`
with base (radix) 2 and exponent 2, `from_minor(100, xts)` produces the
amount `100 / 10^2 = 1` — the source divides by
`Decimal(10**exponent)` — not `100 / radix^exponent = 25` as the claim
states (the spec-worded conversion is `from_minor_by_spec`). -/
theorem claim_C8_counterexample :
    Dinero.from_minor 100 xts = .ok (Dinero.mk 1 xts) ∧
    Dinero.from_minor_by_spec 100 xts = .ok (Dinero.mk 25 xts) ∧
    Dinero.mk (1 : ℚ) xts ≠ Dinero.mk 25 xts :=
  ⟨by with_unfolding_all rfl, by with_unfolding_all rfl,
   fun h => absurd (congrArg Dinero.amount h) (by norm_num)⟩

/-- Claim C8, amended: `from_minor(x, c)` fails with the ArgumentFormat
condition (the source's `ValueError`) exactly when `x` is not a whole
number, and for whole `x` returns a Dinero whose major-unit amount is
`x / 10^exponent` (the literal radix 10, regardless of the currency's
`base` field). -/
theorem claim_C8_amended_from_minor (q : ℚ) (c : Currency) :
    (Dinero.from_minor q c = .error .valueError ↔ q.den ≠ 1) ∧
    (q.den = 1 → Dinero.from_minor q c = .ok ⟨q / 10 ^ c.exponent, c⟩) := by
  unfold Dinero.from_minor
  by_cases h : q.den = 1 <;> simp [h]

/-- Witness for the amended C8: 3.5 minor units are rejected, 3 minor
units convert to 3/100 USD major units. -/
theorem claim_C8_amended_witness :
    Dinero.from_minor (7/2) usd = .error .valueError ∧
    Dinero.from_minor 3 usd = .ok ⟨(3 : ℚ) / 10 ^ usd.exponent, usd⟩ :=
  ⟨(claim_C8_amended_from_minor (7/2) usd).1.mpr
      (by rw [show ((7 : ℚ)/2).den = 2 from by with_unfolding_all rfl]; norm_num),
   (claim_C8_amended_from_minor 3 usd).2 (by with_unfolding_all rfl)⟩

/-- Claim C9: reverse addition with any non-Dinero left operand, of any
type and value (zero or not), returns the receiver unchanged:
`__radd__` ignores its argument. -/
theorem claim_C9_radd_identity (α : Type) (x : α) (d : Dinero) :
    d.radd x = d := rfl

/-- Claim C10: the public `precision` property returns the currency's
`base` field (the radix), independent of the amount and of the factory
that produced the object, and that value is a lower bound (floor) of the
working precision `_normalize` installs. -/
theorem claim_C10_precision_is_radix (a a2 : ℚ) (c : Currency) (L : ℕ) :
    (Dinero.from_major a c).precision = c.base ∧
    (Dinero.from_fractional_minor a c).precision = c.base ∧
    (Dinero.from_major a c).precision = (Dinero.from_major a2 c).precision ∧
    (Dinero.from_major a c).precision ≤ (Dinero.from_major a c).working_prec L :=
  ⟨rfl, rfl, rfl, le_max_left _ _⟩
